import Mathlib

/-!
Verification of the ChiselStrike authentication slice (`server/src/auth.rs`).

The handlers `handle_callback`, `lookup_user` and `get_username` are embedded
directly from the Rust source.  The collaborators that the fragment reaches
through the global runtime — the query engine's `add_row`, the metadata
service's `new_session_token` / `get_username`, and the `urldecode` crate —
are not part of the shown source, so they are modelled from the spec as
instrumented state (`World`) together with an environment (`Env`) that
supplies the URL decoder and failure oracles for the fallible operations.
-/

namespace ChiselAuth

/-- An HTTP response as built by the handlers: a numeric status code, an
optional Location header value, and a plain-text body. -/
structure HttpResponse where
  status : Nat
  location : Option String
  body : String
deriving DecidableEq, Repr

/-- Embeds `redirect` from auth.rs: a 307 Temporary Redirect whose Location
header is the given link and whose body is the HTML redirect notice. -/
def redirect (link : String) : HttpResponse :=
  { status := 307
    location := some link
    body := "Redirecting to <a href='" ++ link ++ "'>" ++ link ++ "</a>\n" }

/-- Embeds `bad_request` from auth.rs: a 400 Bad Request whose body is the
message followed by a newline. -/
def bad_request (msg : String) : HttpResponse :=
  { status := 400, location := none, body := msg ++ "\n" }

/-- The fixed path used for the token-lookup route, `USERPATH` in auth.rs. -/
def USERPATH : String := "/__chiselstrike/auth/user/"

/-- The row value map built by `insert_user_into_db`: a JSON object with the
single field `username` bound to the given string. -/
def mkUserObject (username : String) : List (String × String) :=
  [("username", username)]

/-- Modelled from the spec: the observable state of the runtime collaborators
that auth.rs reaches through `runtime::get()` — the backing table of the
built-in OAuth user type (rows inserted via the query engine's `add_row`),
the Session Store's token-to-username associations, and a counter that
stands in for the store's fresh-token generator. -/
structure World where
  userRows : List (List (String × String))
  tokens : List (String × String)
  tokCounter : Nat
deriving DecidableEq, Repr

/-- Modelled from the spec: the ambient environment of a handler run — the
external `urldecode` crate's `decode` function, and failure oracles saying
whether the query engine's `add_row` or the Session Store's
`new_session_token` fails (returning the error message) on a given input
and state.  `none` from an oracle means the operation succeeds. -/
structure Env where
  decode : String → String
  insertFails : String → World → Option String
  mintFails : String → World → Option String

/-- Modelled from the spec: the Session Store's fresh token for the current
state; opaque to callers, distinct on every mint because the counter grows. -/
def freshToken (w : World) : String :=
  "tok" ++ toString w.tokCounter

/-- Embeds `insert_user_into_db` from auth.rs: builds the one-field
`username` row object and persists it via the query engine's `add_row`
(modelled from the spec: success appends the row to the backing table;
any failure — type-registry lookup or storage — is decided by the
environment's oracle and propagated, leaving the state unchanged). -/
def insert_user_into_db (env : Env) (username : String) (w : World) :
    Except String World :=
  match env.insertFails username w with
  | some e => .error e
  | none => .ok { w with userRows := w.userRows ++ [mkUserObject username] }

/-- Modelled from the spec: the Session Store's `new_session_token` —
generates a fresh opaque token, records the token-to-username association,
and returns the token; failure is decided by the environment's oracle. -/
def new_session_token (env : Env) (username : String) (w : World) :
    Except String (String × World) :=
  match env.mintFails username w with
  | some e => .error e
  | none =>
    let t := freshToken w
    .ok (t, { w with tokens := (t, username) :: w.tokens
                     tokCounter := w.tokCounter + 1 })

/-- Modelled from the spec: the Session Store's `get_username` (called as
`meta.get_username` in auth.rs) — resolves a token to its bound username,
failing when the token was never minted or has expired. -/
def meta_get_username (token : String) (w : World) : Except String String :=
  match w.tokens.lookup token with
  | some u => .ok u
  | none => .error "token not found"

/-- Strips a prefix from a character list, embedding Rust's
`str::strip_prefix`: returns the remainder when the list starts with the
pattern, and nothing otherwise. -/
def stripPfxL : List Char → List Char → Option (List Char)
  | [], s => some s
  | _ :: _, [] => none
  | p :: ps, c :: cs => if c = p then stripPfxL ps cs else none

/-- String version of `stripPfxL`: `stripPfx s p` is Rust's
`s.strip_prefix(p)`. -/
def stripPfx (s p : String) : Option String :=
  (stripPfxL p.toList s.toList).map fun l => ⟨l⟩

/-- Boolean test that a character list starts with a pattern. -/
def startsWithL : List Char → List Char → Bool
  | _, [] => true
  | [], _ :: _ => false
  | c :: cs, p :: ps => c = p && startsWithL cs ps

/-- Boolean test that a pattern occurs contiguously inside a list. -/
def hasSub : List Char → List Char → Bool
  | [], pat => pat.isEmpty
  | s@(_ :: rest), pat => startsWithL s pat || hasSub rest pat

/-- `containsSub s pat` holds when `pat` occurs as a contiguous substring
of `s`; used to state the spec's "body containing …" properties. -/
def containsSub (s pat : String) : Bool :=
  hasSub s.toList pat.toList

/-- The outcome of running a handler: either an HTTP response (`Ok` in the
Rust) or a propagated typed failure (`Err`), in both cases together with
the final collaborator state. -/
inductive HandlerOutcome where
  | ok : HttpResponse → World → HandlerOutcome
  | err : String → World → HandlerOutcome
deriving DecidableEq, Repr

/-- The final collaborator state of a handler outcome. -/
def HandlerOutcome.world : HandlerOutcome → World
  | .ok _ w => w
  | .err _ w => w

/-- Embeds `handle_callback` from auth.rs, step for step: extract the raw
query string (`query = none` models an absent query); require the literal
leading `user=`; reject an empty remainder; URL-decode the remainder;
persist the user row; mint a session token; respond with the redirect to
the hardcoded profile URL carrying the token. -/
def handle_callback (env : Env) (query : Option String) (w : World) :
    HandlerOutcome :=
  match query with
  | none => .ok (bad_request "Callback error: parameter missing") w
  | some params =>
    match stripPfx params "user=" with
    | none => .ok (bad_request "Callback error: parameter value missing") w
    | some username =>
      if username = "" then
        .ok (bad_request "Callback error: parameter value empty") w
      else
        let username := env.decode username
        match insert_user_into_db env username w with
        | .error e => .err e w
        | .ok w1 =>
          match new_session_token env username w1 with
          | .error e => .err e w1
          | .ok (tok, w2) =>
            .ok (redirect
              ("http://localhost:3000/profile?chiselstrike_token=" ++ tok)) w2

/-- Embeds `lookup_user` from auth.rs: strip the fixed `USERPATH` prefix
from the request path to obtain the token (failing with the
"lookup_user on wrong URL" error when the prefix is absent), resolve the
token via the Session Store, and answer 200 OK with the username as body. -/
def lookup_user (path : String) (w : World) : Except String HttpResponse :=
  match stripPfx path USERPATH with
  | none => .error "lookup_user on wrong URL"
  | some token =>
    match meta_get_username token w with
    | .error e => .error e
    | .ok u => .ok { status := 200, location := none, body := u }

/-- Visible-ASCII test on a byte, modelling the http crate's check inside
`HeaderValue::to_str`: printable ASCII (32 to 126) or horizontal tab. -/
def is_visible_ascii (b : Nat) : Bool :=
  (32 ≤ b && b < 127) || b == 9

/-- Models the http crate's `HeaderValue::to_str`: succeeds with the decoded
string exactly when every byte of the header value is visible ASCII. -/
def header_to_str (bytes : List Nat) : Except String String :=
  if bytes.all is_visible_ascii then .ok ⟨bytes.map Char.ofNat⟩
  else .error "header value is not visible ASCII"

/-- Embeds the credential extractor `get_username` from auth.rs: with no
`ChiselStrikeToken` header (`hdr = none`) it returns no credential; with a
header it converts the value to a string (propagating the conversion
failure) and resolves it via the Session Store, turning any resolution
failure into no credential with `.ok`. -/
def get_username (hdr : Option (List Nat)) (w : World) :
    Except String (Option String) :=
  match hdr with
  | some token =>
    match header_to_str token with
    | .error e => .error e
    | .ok s => .ok (meta_get_username s w).toOption
  | none => .ok none

/-- The tagged union of scalar SQL parameter values (`SqlValue` in
`db.rs`); only the string variant is exercised by auth.rs. -/
inductive SqlValue where
  | string : String → SqlValue
  | integer : Int → SqlValue
  | bool : Bool → SqlValue
deriving DecidableEq, Repr

/-- A parameterized statement (`SqlWithArguments` in the query engine): SQL
text with positional placeholders plus the ordered bound arguments. -/
structure SqlWithArguments where
  sql : String
  args : List SqlValue
deriving DecidableEq, Repr

/-- Embeds the statement construction inside `get_userid_from_db` from
auth.rs: the fixed SELECT template instantiated with the user type's
backing-table name, with the username passed only as the single positional
argument.  The backing table name comes from the Type Registry, which is
outside the fragment, so it is a parameter here. -/
def get_userid_from_db_stmt (backingTable : String) (username : String) :
    SqlWithArguments :=
  { sql := "SELECT id FROM " ++ backingTable ++ " WHERE username=$1"
    args := [SqlValue.string username] }

/-- A sample environment in which the URL decoder is the identity and no
collaborator operation fails. -/
def env0 : Env :=
  { decode := id, insertFails := fun _ _ => none, mintFails := fun _ _ => none }

/-- The empty collaborator state. -/
def w0 : World :=
  { userRows := [], tokens := [], tokCounter := 0 }

/-- A sample state with one minted token bound to the username alice. -/
def wEx : World :=
  { userRows := [mkUserObject "alice"], tokens := [("abc", "alice")]
    tokCounter := 1 }

theorem stripPfxL_self_append (p s : List Char) :
    stripPfxL p (p ++ s) = some s := by
  induction p with
  | nil => rfl
  | cons a ps ih => simp [stripPfxL, ih]

theorem stripPfx_append (p s : String) : stripPfx (p ++ s) p = some s := by
  have h : (p ++ s).toList = p.toList ++ s.toList := rfl
  simp [stripPfx, h, stripPfxL_self_append]

/-- Claim C7: a callback request with no query string at all is answered with
a 400 Bad Request whose body contains "parameter missing", and the
collaborator state is returned unchanged: no row is inserted and no token
is minted. -/
theorem callback_absent_query (env : Env) (w : World) :
    handle_callback env none w
      = .ok (bad_request "Callback error: parameter missing") w
    ∧ (bad_request "Callback error: parameter missing").status = 400
    ∧ containsSub (bad_request "Callback error: parameter missing").body
        "parameter missing" = true :=
  ⟨rfl, rfl, by decide⟩

/-- Claim C8: a callback request whose query string is exactly the bare
prefix is answered with a 400 Bad Request whose body contains
"value empty", and the collaborator state is returned unchanged: no row is
inserted and no token is minted. -/
theorem callback_empty_value (env : Env) (w : World) :
    handle_callback env (some "user=") w
      = .ok (bad_request "Callback error: parameter value empty") w
    ∧ (bad_request "Callback error: parameter value empty").status = 400
    ∧ containsSub (bad_request "Callback error: parameter value empty").body
        "value empty" = true :=
  ⟨rfl, rfl, by decide⟩

/-- Claim C2, counterexample: on a present-but-empty query string the
handler does answer 400, but the body is
"Callback error: parameter value missing", which does not contain the
substring "parameter missing" claimed by the spec. -/
theorem callback_empty_query_counterexample :
    handle_callback env0 (some "") w0
      = .ok (bad_request "Callback error: parameter value missing") w0
    ∧ containsSub (bad_request "Callback error: parameter value missing").body
        "parameter missing" = false :=
  ⟨rfl, by decide⟩

/-- Claim C2, amended: a callback request whose query string is present but
empty is answered with a 400 Bad Request whose body contains the substring
"parameter value missing", with the collaborator state unchanged. -/
theorem callback_empty_query (env : Env) (w : World) :
    handle_callback env (some "") w
      = .ok (bad_request "Callback error: parameter value missing") w
    ∧ (bad_request "Callback error: parameter value missing").status = 400
    ∧ containsSub (bad_request "Callback error: parameter value missing").body
        "parameter value missing" = true :=
  ⟨rfl, rfl, by decide⟩

/-- Claim C6: the id-by-username statement's SQL text is the fixed SELECT
template over the backing table, independent of the username, and its
argument list is exactly the one-element list holding the username as a
string SQL value — the username is never interpolated into the text. -/
theorem get_userid_stmt_parameterized (table u1 u2 : String) :
    (get_userid_from_db_stmt table u1).sql
        = (get_userid_from_db_stmt table u2).sql
    ∧ (get_userid_from_db_stmt table u1).sql
        = "SELECT id FROM " ++ table ++ " WHERE username=$1"
    ∧ (get_userid_from_db_stmt table u1).args = [SqlValue.string u1] :=
  ⟨rfl, rfl, rfl⟩

/-- Claim C1: on a query string that is the `user=` prefix followed by a
non-empty remainder, when the insert and the mint succeed, the handler
appends a row whose `username` field is the URL-decoded remainder to the
user type's backing table, mints a token bound to that username, and
answers 307 with the Location header pointing at the fixed profile URL
carrying the token as the `chiselstrike_token` query parameter. -/
theorem callback_success (env : Env) (w : World) (rem : String)
    (hrem : rem ≠ "")
    (hins : env.insertFails (env.decode rem) w = none)
    (hmint : env.mintFails (env.decode rem)
        { w with userRows := w.userRows ++ [mkUserObject (env.decode rem)] }
        = none) :
    ∃ tok w2 resp,
      handle_callback env (some ("user=" ++ rem)) w = .ok resp w2
      ∧ resp.status = 307
      ∧ resp.location
          = some ("http://localhost:3000/profile?chiselstrike_token=" ++ tok)
      ∧ w2.userRows = w.userRows ++ [mkUserObject (env.decode rem)]
      ∧ w2.tokens.lookup tok = some (env.decode rem) := by
  have hsp : stripPfx ("user=" ++ rem) "user=" = some rem :=
    stripPfx_append "user=" rem
  refine ⟨freshToken
      { w with userRows := w.userRows ++ [mkUserObject (env.decode rem)] },
    { w with
        userRows := w.userRows ++ [mkUserObject (env.decode rem)]
        tokens :=
          (freshToken
              { w with userRows := w.userRows ++ [mkUserObject (env.decode rem)] },
            env.decode rem) :: w.tokens
        tokCounter := w.tokCounter + 1 },
    redirect ("http://localhost:3000/profile?chiselstrike_token="
      ++ freshToken
          { w with userRows := w.userRows ++ [mkUserObject (env.decode rem)] }),
    ?_, rfl, rfl, rfl, ?_⟩
  · simp only [handle_callback, hsp, if_neg hrem, insert_user_into_db, hins,
      new_session_token, hmint]
  · simp [List.lookup]

/-- Claim C1 witness at the concrete input `user=alice` in the sample
environment and empty state. -/
theorem callback_success_witness :
    ∃ tok w2 resp,
      handle_callback env0 (some ("user=" ++ "alice")) w0 = .ok resp w2
      ∧ resp.status = 307
      ∧ resp.location
          = some ("http://localhost:3000/profile?chiselstrike_token=" ++ tok)
      ∧ w2.userRows = w0.userRows ++ [mkUserObject (env0.decode "alice")]
      ∧ w2.tokens.lookup tok = some (env0.decode "alice") :=
  callback_success env0 w0 "alice" (by decide) rfl rfl

/-- Claim C5: when persisting the user row fails, the callback handler
propagates exactly that failure with the state unchanged — so the token
association list is untouched (no token is minted) and no redirect (or any
other response) is produced; the mint can only happen after a successful
insert. -/
theorem callback_insert_failure (env : Env) (w : World) (rem : String)
    (hrem : rem ≠ "") (e : String)
    (hins : env.insertFails (env.decode rem) w = some e) :
    handle_callback env (some ("user=" ++ rem)) w = .err e w
    ∧ (handle_callback env (some ("user=" ++ rem)) w).world.tokens = w.tokens
    ∧ ∀ resp w2,
        handle_callback env (some ("user=" ++ rem)) w ≠ .ok resp w2 := by
  have hsp : stripPfx ("user=" ++ rem) "user=" = some rem :=
    stripPfx_append "user=" rem
  have h : handle_callback env (some ("user=" ++ rem)) w = .err e w := by
    simp only [handle_callback, hsp, if_neg hrem, insert_user_into_db, hins]
  refine ⟨h, by simp [h, HandlerOutcome.world], ?_⟩
  intro resp w2 hc
  rw [h] at hc
  exact HandlerOutcome.noConfusion hc

/-- A sample environment whose insert oracle always reports a storage
failure. -/
def envIns : Env :=
  { decode := id
    insertFails := fun _ _ => some "storage error"
    mintFails := fun _ _ => none }

/-- Claim C5 witness at the concrete input `user=alice` in an environment
whose insert fails with a storage error. -/
theorem callback_insert_failure_witness :
    handle_callback envIns (some ("user=" ++ "alice")) w0
        = .err "storage error" w0
    ∧ (handle_callback envIns (some ("user=" ++ "alice")) w0).world.tokens
        = w0.tokens
    ∧ ∀ resp w2,
        handle_callback envIns (some ("user=" ++ "alice")) w0 ≠ .ok resp w2 :=
  callback_insert_failure envIns w0 "alice" (by decide) "storage error" rfl

/-- Claim C3: the credential extractor returns the bound username when the
header value converts to a token that resolves; returns no credential when
the header is absent; and returns no credential — not a failure — when the
token fails to resolve. -/
theorem get_username_cases (w : World) :
    (∀ bytes s u, header_to_str bytes = .ok s → w.tokens.lookup s = some u →
        get_username (some bytes) w = .ok (some u))
    ∧ get_username none w = .ok none
    ∧ (∀ bytes s, header_to_str bytes = .ok s → w.tokens.lookup s = none →
        get_username (some bytes) w = .ok none) := by
  refine ⟨?_, rfl, ?_⟩
  · intro bytes s u h1 h2
    simp only [get_username, h1, meta_get_username, h2, Except.toOption]
  · intro bytes s h1 h2
    simp only [get_username, h1, meta_get_username, h2, Except.toOption]

/-- Claim C3 witness: in the sample state, the header bytes of "abc"
resolve to alice, the absent header gives no credential, and the header
bytes of "x" (a token never minted) give no credential. -/
theorem get_username_cases_witness :
    get_username (some [97, 98, 99]) wEx = .ok (some "alice")
    ∧ get_username none wEx = .ok none
    ∧ get_username (some [120]) wEx = .ok none :=
  ⟨(get_username_cases wEx).1 [97, 98, 99] "abc" "alice" rfl rfl,
   (get_username_cases wEx).2.1,
   (get_username_cases wEx).2.2 [120] "x" rfl rfl⟩

/-- Claim C9: a present header whose bytes are not all visible ASCII makes
the credential extractor fail with the conversion error, and this is the
only way a present header produces a failure — whenever the bytes are
visible ASCII the extractor returns some (possibly absent) credential. -/
theorem get_username_invalid_header (w : World) (bytes : List Nat)
    (h : bytes.all is_visible_ascii = false) :
    get_username (some bytes) w
        = .error "header value is not visible ASCII"
    ∧ ∀ bytes2 w2, bytes2.all is_visible_ascii = true →
        ∃ o, get_username (some bytes2) w2 = .ok o := by
  constructor
  · simp [get_username, header_to_str, h]
  · intro bytes2 w2 h2
    refine ⟨(meta_get_username ⟨bytes2.map Char.ofNat⟩ w2).toOption, ?_⟩
    simp [get_username, header_to_str, h2]

/-- Claim C9 witness at the concrete header value holding the single
non-visible byte 0. -/
theorem get_username_invalid_header_witness :
    get_username (some [0]) wEx = .error "header value is not visible ASCII"
    ∧ ∀ bytes2 w2, bytes2.all is_visible_ascii = true →
        ∃ o, get_username (some bytes2) w2 = .ok o :=
  get_username_invalid_header wEx [0] (by decide)

/-- Claim C4: the lookup handler strips the fixed user-path prefix to get
the token and answers 200 OK with the resolved username as body; a path
without the prefix fails with the malformed-request error; a token never
minted makes the Session Store failure propagate, so no 200 response is
produced. -/
theorem lookup_user_spec (w : World) :
    (∀ tok u, w.tokens.lookup tok = some u →
        lookup_user (USERPATH ++ tok) w
          = .ok { status := 200, location := none, body := u })
    ∧ (∀ path, stripPfx path USERPATH = none →
        lookup_user path w = .error "lookup_user on wrong URL")
    ∧ (∀ tok, w.tokens.lookup tok = none →
        lookup_user (USERPATH ++ tok) w = .error "token not found") := by
  refine ⟨?_, ?_, ?_⟩
  · intro tok u h
    simp only [lookup_user, stripPfx_append, meta_get_username, h]
  · intro path h
    simp only [lookup_user, h]
  · intro tok h
    simp only [lookup_user, stripPfx_append, meta_get_username, h]

/-- Claim C4 witness: in the sample state the minted token abc resolves to
alice with a 200 response, the path "bad" lacking the prefix fails as
malformed, and the unminted token zzz propagates the store failure. -/
theorem lookup_user_spec_witness :
    lookup_user (USERPATH ++ "abc") wEx
        = .ok { status := 200, location := none, body := "alice" }
    ∧ lookup_user "bad" wEx = .error "lookup_user on wrong URL"
    ∧ lookup_user (USERPATH ++ "zzz") wEx = .error "token not found" :=
  ⟨(lookup_user_spec wEx).1 "abc" "alice" rfl,
   (lookup_user_spec wEx).2.1 "bad" rfl,
   (lookup_user_spec wEx).2.2 "zzz" rfl⟩

/-- Claim C10: the callback handler treats the whole query string as one
value — for the query `user=a&other=b` (when the insert succeeds) the row
it inserts holds the decoding of the entire remainder `a&other=b`, and a
query where `user=` is not the leading prefix, such as `state=x&user=a`,
is rejected with a 400 response and an unchanged state. -/
theorem callback_whole_query (env : Env) (w : World)
    (hins : env.insertFails (env.decode "a&other=b") w = none) :
    (handle_callback env (some "user=a&other=b") w).world.userRows
        = w.userRows ++ [mkUserObject (env.decode "a&other=b")]
    ∧ handle_callback env (some "state=x&user=a") w
        = .ok (bad_request "Callback error: parameter value missing") w := by
  constructor
  · have hsp : stripPfx "user=a&other=b" "user=" = some "a&other=b" := rfl
    simp only [handle_callback, hsp]
    rw [if_neg (by decide : ¬("a&other=b" = ""))]
    simp only [insert_user_into_db, hins]
    cases hm : env.mintFails (env.decode "a&other=b")
        { w with userRows := w.userRows ++ [mkUserObject (env.decode "a&other=b")] }
      with
    | none => simp only [new_session_token, hm, HandlerOutcome.world]
    | some e => simp only [new_session_token, hm, HandlerOutcome.world]
  · rfl

/-- Claim C10 witness in the sample environment and empty state. -/
theorem callback_whole_query_witness :
    (handle_callback env0 (some "user=a&other=b") w0).world.userRows
        = w0.userRows ++ [mkUserObject (env0.decode "a&other=b")]
    ∧ handle_callback env0 (some "state=x&user=a") w0
        = .ok (bad_request "Callback error: parameter value missing") w0 :=
  callback_whole_query env0 w0 rfl

end ChiselAuth
